import Mathlib

/-
Verification of the ChatService data-access façade
(src/realtime-chat-react/src/services/ChatService.js).

Shallow embedding: each service function of the JavaScript source is
modelled by
  * a `...Call` / `...Calls` definition recording the backend invocation(s)
    the function performs (collection name, constructed record, filter
    condition, patch), and
  * a `...Outcome` definition mapping the backend promise's result
    (fulfilled with a response, or rejected with a transport error) to the
    final state of the promise returned by the service function.

JavaScript promises settle at most once: the first call to resolve/reject
wins and later calls are ignored.  Each executor is therefore embedded as
the list of resolve/reject calls it makes for a given backend result, and
`settleFirst` picks the winning one (an empty list of calls leaves the
promise forever pending).

JavaScript objects used as dictionaries are embedded as association lists
(`Obj`) with overwrite-in-place assignment (`objSet`) and latest-value
lookup (`objGet`).  Ambient inputs of the source (the authenticated user
read from the store, `config.generateId()`, `new Date()`) are explicit
parameters (`user`, `newId`, `now`).
-/

set_option autoImplicit false

namespace ChatService

/-! Part: Data model -/

/-- A user record (`{_id, name, ...}`) as stored in the `users` collection. -/
structure User where
  _id : String
  name : String
  deriving DecidableEq

/-- A chat record as built by `createChat`:
`{ _id: config.generateId(), to: partnerID, from: user._id, creation: new Date() }`.
`creation` (a `Date`) is modelled as a numeric timestamp. -/
structure Chat where
  _id : String
  «to» : String
  «from» : String
  creation : Nat
  deriving DecidableEq

/-- A message record as built by `sendMessage`:
`{ _id, text, read, chat_id, from, time }`. -/
structure Message where
  _id : String
  text : String
  read : Bool
  chat_id : String
  «from» : String
  time : Nat
  deriving DecidableEq

/-! Part: JavaScript objects as dictionaries -/

/-- A JavaScript object used as a string-keyed dictionary. -/
abbrev Obj (α : Type) := List (String × α)

/-- Property read `m[k]`: the value stored under `k`, if any. -/
def objGet {α : Type} : Obj α → String → Option α
  | [], _ => none
  | (k', v') :: rest, k => if k' = k then some v' else objGet rest k

/-- Property write `m[k] = v`: overwrite the existing binding in place,
or append a fresh one. -/
def objSet {α : Type} : Obj α → String → α → Obj α
  | [], k, v => [(k, v)]
  | (k', v') :: rest, k, v =>
      if k' = k then (k, v) :: rest else (k', v') :: objSet rest k v

/-! Part: Filter conditions (space-api `cond` / `or`) -/

/-- The predicate algebra the source builds with space-api's `cond` and `or`:
an equality/inequality condition on a field, or a disjunction. -/
inductive Pred where
  | cond (field : String) (op : String) (value : String)
  | or (ps : List Pred)

mutual

/-- Evaluate a condition against a record presented as a field lookup. -/
def evalPred (get : String → Option String) : Pred → Bool
  | .cond f op v =>
      if op = "==" then get f = some v
      else if op = "!=" then !(get f = some v)
      else false
  | .or ps => evalPredList get ps

/-- Evaluate a disjunction of conditions (true when some disjunct is). -/
def evalPredList (get : String → Option String) : List Pred → Bool
  | [] => false
  | p :: rest => evalPred get p || evalPredList get rest

end

/-- Field lookup on a chat record (the string-valued fields a condition
can mention). -/
def chatGetField (c : Chat) : String → Option String := fun f =>
  if f = "_id" then some c._id
  else if f = "to" then some c.«to»
  else if f = "from" then some c.«from»
  else none

/-- Field lookup on a user record. -/
def userGetField (u : User) : String → Option String := fun f =>
  if f = "_id" then some u._id
  else if f = "name" then some u.name
  else none

/-! Part: Promise model -/

/-- The final state of a JavaScript promise: still pending, resolved with a
value, or rejected with a reason. -/
inductive Outcome (ε α : Type) where
  | pending
  | resolved (v : α)
  | rejected (e : ε)
  deriving DecidableEq

/-- One call made by an executor to its `resolve` or `reject` capability. -/
inductive SettleCall (ε α : Type) where
  | resolveCall (v : α)
  | rejectCall (e : ε)
  deriving DecidableEq

/-- A promise settles at most once: the first resolve/reject call wins;
no call at all leaves the promise pending. -/
def settleFirst {ε α : Type} : List (SettleCall ε α) → Outcome ε α
  | [] => .pending
  | .resolveCall v :: _ => .resolved v
  | .rejectCall e :: _ => .rejected e

/-- The result handed to `.then` / `.catch` handlers: the backend promise
fulfilled with a response, or rejected with a transport error. -/
inductive PromiseResult (ε α : Type) where
  | fulfilled (res : α)
  | rejected (err : ε)
  deriving DecidableEq

/-- A rejection reason sent through the untyped promise channel: either a
plain string message (`reject("...")`) or a propagated backend error. -/
inductive RejectReason (ε : Type) where
  | message (s : String)
  | error (e : ε)
  deriving DecidableEq

/-! Part: Backend responses and invocations -/

/-- Response to an `insert` call (`res.status` is all the source reads). -/
structure InsertResponse where
  status : Nat
  deriving DecidableEq

/-- Response to an `updateOne ... apply()` call. -/
structure UpdateResponse where
  status : Nat
  deriving DecidableEq

/-- The `data` part of a query response (`res.data.result`). -/
structure QueryData (α : Type) where
  result : List α
  deriving DecidableEq

/-- Response to a `get ... where ... apply()` call. -/
structure QueryResponse (α : Type) where
  status : Nat
  data : QueryData α
  deriving DecidableEq

/-- One invocation of `config.db.insert(collection).one(record)`. -/
structure InsertCall (α : Type) where
  collection : String
  record : α
  deriving DecidableEq

/-- One invocation of
`config.db.updateOne(collection).where(condition).set(patch).apply()`. -/
structure UpdateCall where
  collection : String
  condition : Pred
  patch : Message

/-! Part: convertRawUsersToHasedObject -/

/-- `convertRawUsersToHasedObject`: hash the raw user list by `_id`, then
store the sentinel `{_id: "ALL", name: "ALL"}` under key `"ALL"`. -/
def convertRawUsersToHasedObject (rawUsers : List User) : Obj User :=
  objSet (rawUsers.foldl (fun users elt => objSet users elt._id elt) [])
    "ALL" { _id := "ALL", name := "ALL" }

/-! Part: createChat -/

/-- The chat record `createChat` builds locally before inserting. -/
def createChatRecord (partnerID : String) (user : User) (newId : String)
    (now : Nat) : Chat :=
  { _id := newId, «to» := partnerID, «from» := user._id, creation := now }

/-- The backend invocations `createChat` performs: a single insert of the
locally built record into the `chats` collection. -/
def createChatCalls (partnerID : String) (user : User) (newId : String)
    (now : Nat) : List (InsertCall Chat) :=
  [{ collection := "chats", record := createChatRecord partnerID user newId now }]

/-- The resolve/reject calls `createChat`'s executor makes for a given
backend result: on fulfilment resolve with the local record (the response,
its status included, is never inspected); on rejection reject with the
backend error. -/
def createChatSettles {ε : Type} (partnerID : String) (user : User)
    (newId : String) (now : Nat) (res : PromiseResult ε InsertResponse) :
    List (SettleCall ε Chat) :=
  match res with
  | .fulfilled _ => [.resolveCall (createChatRecord partnerID user newId now)]
  | .rejected e => [.rejectCall e]

/-- The final state of the promise returned by `createChat`. -/
def createChatOutcome {ε : Type} (partnerID : String) (user : User)
    (newId : String) (now : Nat) (res : PromiseResult ε InsertResponse) :
    Outcome ε Chat :=
  settleFirst (createChatSettles partnerID user newId now res)

/-! Part: sendMessage -/

/-- The message record `sendMessage` builds locally before inserting. -/
def sendMessageRecord (chatID text : String) (user : User) (newId : String)
    (now : Nat) : Message :=
  { _id := newId, text := text, read := false, chat_id := chatID,
    «from» := user._id, time := now }

/-- The backend invocations `sendMessage` performs: a single insert of the
locally built record into the `messages` collection. -/
def sendMessageCalls (chatID text : String) (user : User) (newId : String)
    (now : Nat) : List (InsertCall Message) :=
  [{ collection := "messages", record := sendMessageRecord chatID text user newId now }]

/-- The resolve/reject calls `sendMessage`'s executor makes: on fulfilment,
when `res.status !== 200` it first calls
`reject("User not allowed to sign in")`, then (there being no early return)
also calls `resolve(res)`; on a 200 status it only calls `resolve(res)`;
on rejection it calls `reject(error)`. -/
def sendMessageSettles {ε : Type} (res : PromiseResult ε InsertResponse) :
    List (SettleCall (RejectReason ε) InsertResponse) :=
  match res with
  | .fulfilled r =>
      (if r.status ≠ 200 then [.rejectCall (.message "User not allowed to sign in")]
       else []) ++ [.resolveCall r]
  | .rejected e => [.rejectCall (.error e)]

/-- The final state of the promise returned by `sendMessage` (settle-once:
the reject issued on a non-200 status wins over the unconditional resolve
that follows it). -/
def sendMessageOutcome {ε : Type} (res : PromiseResult ε InsertResponse) :
    Outcome (RejectReason ε) InsertResponse :=
  settleFirst (sendMessageSettles res)

/-! Part: updateMessage -/

/-- The backend invocation `updateMessage` performs:
`updateOne("messages").where(cond("_id", "==", message._id)).set(message).apply()`. -/
def updateMessageCall (message : Message) : UpdateCall :=
  { collection := "messages",
    condition := .cond "_id" "==" message._id,
    patch := message }

/-- The resolve/reject calls `updateMessage`'s executor makes: on fulfilment
`resolve(res)`; on rejection the `.catch(err => { throw err })` handler
throws instead of calling `reject`, so neither capability is ever invoked. -/
def updateMessageSettles {ε : Type} (res : PromiseResult ε UpdateResponse) :
    List (SettleCall ε UpdateResponse) :=
  match res with
  | .fulfilled r => [.resolveCall r]
  | .rejected _ => []

/-- The final state of the promise returned by `updateMessage`. -/
def updateMessageOutcome {ε : Type} (res : PromiseResult ε UpdateResponse) :
    Outcome ε UpdateResponse :=
  settleFirst (updateMessageSettles res)

/-- The final state of the inner `.then(...).catch(err => { throw err })`
chain inside `updateMessage`: the rethrow rejects this inner promise with
the same error (it becomes an unhandled rejection; the outer promise is
unaffected). -/
def updateMessageInnerChain {ε : Type} (res : PromiseResult ε UpdateResponse) :
    Outcome ε Unit :=
  match res with
  | .fulfilled _ => .resolved ()
  | .rejected e => .rejected e

/-! Part: getMessages -/

/-- The filter condition `getMessages` builds:
`or(cond("to", "==", user._id), cond("from", "==", user._id))`. -/
def getMessagesCondition (uid : String) : Pred :=
  .or [.cond "to" "==" uid, .cond "from" "==" uid]

/-- One step of the `forEach` loop inside `getMessages`: ensure the bucket
for `elt.chat_id` exists (`if (!messages[key]) messages[key] = []`), then
push `elt` onto it. -/
def pushMessage (messages : Obj (List Message)) (elt : Message) :
    Obj (List Message) :=
  let key := elt.chat_id
  let messages1 := if objGet messages key = none then objSet messages key [] else messages
  objSet messages1 key ((objGet messages1 key).getD [] ++ [elt])

/-- The grouped table `getMessages` builds from a successful result list:
group by `chat_id` preserving order, then set `messages["ALL"] = []`. -/
def groupMessagesByChat (result : List Message) : Obj (List Message) :=
  objSet (result.foldl pushMessage []) "ALL" []

/-- The resolve/reject calls `getMessages`'s executor makes: on fulfilment
it resolves with the grouped table only when `res.status === 200` (any
other status makes no call at all); on rejection it rejects with the
backend error. -/
def getMessagesSettles {ε : Type} (res : PromiseResult ε (QueryResponse Message)) :
    List (SettleCall ε (Obj (List Message))) :=
  match res with
  | .fulfilled r =>
      if r.status = 200 then [.resolveCall (groupMessagesByChat r.data.result)]
      else []
  | .rejected e => [.rejectCall e]

/-- The final state of the promise returned by `getMessages`. -/
def getMessagesOutcome {ε : Type} (res : PromiseResult ε (QueryResponse Message)) :
    Outcome ε (Obj (List Message)) :=
  settleFirst (getMessagesSettles res)

/-! Part: getUsers -/

/-- The filter condition `getUsers` builds: `cond("_id", "!=", user._id)`. -/
def getUsersCondition (uid : String) : Pred :=
  .cond "_id" "!=" uid

/-- The resolve/reject calls `getUsers`'s executor makes: on fulfilment it
resolves with the hashed user table only when `res.status === 200` (any
other status makes no call at all); on rejection it rejects with the
backend error. -/
def getUsersSettles {ε : Type} (res : PromiseResult ε (QueryResponse User)) :
    List (SettleCall ε (Obj User)) :=
  match res with
  | .fulfilled r =>
      if r.status = 200 then [.resolveCall (convertRawUsersToHasedObject r.data.result)]
      else []
  | .rejected e => [.rejectCall e]

/-- The final state of the promise returned by `getUsers`. -/
def getUsersOutcome {ε : Type} (res : PromiseResult ε (QueryResponse User)) :
    Outcome ε (Obj User) :=
  settleFirst (getUsersSettles res)

/-! Part: getChats -/

/-- The filter condition `getChats` builds:
`or(cond("from", "==", user._id), cond("to", "==", user._id), cond("to", "==", "ALL"))`. -/
def getChatsCondition (uid : String) : Pred :=
  .or [.cond "from" "==" uid, .cond "to" "==" uid, .cond "to" "==" "ALL"]

/-- The resolve/reject calls `getChats`'s executor makes: on fulfilment it
resolves with the raw result list only when `res.status === 200` (any other
status makes no call at all); on rejection it rejects with the backend
error. -/
def getChatsSettles {ε : Type} (res : PromiseResult ε (QueryResponse Chat)) :
    List (SettleCall ε (List Chat)) :=
  match res with
  | .fulfilled r =>
      if r.status = 200 then [.resolveCall r.data.result]
      else []
  | .rejected e => [.rejectCall e]

/-- The final state of the promise returned by `getChats`. -/
def getChatsOutcome {ε : Type} (res : PromiseResult ε (QueryResponse Chat)) :
    Outcome ε (List Chat) :=
  settleFirst (getChatsSettles res)

/-! Part: Realtime triggers -/

/-- The filter condition `startMessagesRealtime` subscribes with:
`cond("chat_id", "==", chatID)`. -/
def startMessagesRealtimeCondition (chatID : String) : Pred :=
  .cond "chat_id" "==" chatID

/-- The filter condition `startChatsRealtime` subscribes with:
`or(or(cond("to", "==", user._id), cond("from", "==", user._id), cond("to", "==", "ALL")))`. -/
def startChatsRealtimeCondition (uid : String) : Pred :=
  .or [.or [.cond "to" "==" uid, .cond "from" "==" uid, .cond "to" "==" "ALL"]]

/-! Part: Dictionary lemmas -/

/-- Reading back the key just written returns the written value. -/
theorem objGet_objSet_self {α : Type} (m : Obj α) (k : String) (v : α) :
    objGet (objSet m k v) k = some v := by
  induction m with
  | nil => simp [objSet, objGet]
  | cons p rest ih =>
      obtain ⟨k', v'⟩ := p
      by_cases h : k' = k
      · simp [objSet, h, objGet]
      · simp [objSet, h, objGet, ih]

/-- Writing one key leaves every other key's binding unchanged. -/
theorem objGet_objSet_ne {α : Type} (m : Obj α) (k k' : String) (v : α)
    (h : k ≠ k') :
    objGet (objSet m k v) k' = objGet m k' := by
  induction m with
  | nil => simp [objSet, objGet, h]
  | cons p rest ih =>
      obtain ⟨k0, v0⟩ := p
      by_cases h0 : k0 = k
      · subst h0
        simp [objSet, objGet, h]
      · simp [objSet, h0, objGet, ih]

/-- Hashing users whose ids all differ from `k` leaves the binding at `k`
unchanged. -/
theorem foldl_hash_get_of_ne (l : List User) (acc : Obj User) (k : String)
    (h : ∀ e ∈ l, e._id ≠ k) :
    objGet (l.foldl (fun users elt => objSet users elt._id elt) acc) k =
      objGet acc k := by
  induction l generalizing acc with
  | nil => rfl
  | cons e rest ih =>
      simp only [List.foldl_cons]
      rw [ih (objSet acc e._id e) (fun x hx => h x (List.mem_cons_of_mem _ hx))]
      exact objGet_objSet_ne acc e._id k e (h e (List.mem_cons_self _ _))

/-- With pairwise distinct ids, hashing binds each listed user's id to that
user. -/
theorem foldl_hash_get_of_mem (l : List User) (acc : Obj User) (u : User)
    (hu : u ∈ l) (hnodup : (l.map User._id).Nodup) :
    objGet (l.foldl (fun users elt => objSet users elt._id elt) acc) u._id =
      some u := by
  induction l generalizing acc with
  | nil => cases hu
  | cons e rest ih =>
      simp only [List.foldl_cons]
      rw [List.map_cons, List.nodup_cons] at hnodup
      rcases List.mem_cons.mp hu with h | h
      · subst h
        have hne : ∀ x ∈ rest, x._id ≠ u._id := by
          intro x hx hxid
          exact hnodup.1 (hxid ▸ List.mem_map_of_mem User._id hx)
        rw [foldl_hash_get_of_ne rest (objSet acc u._id u) u._id hne]
        exact objGet_objSet_self acc u._id u
      · exact ih (objSet acc e._id e) h hnodup.2

/-- Pushing a message appends it to the bucket of its own chat id
(creating the bucket when absent). -/
theorem pushMessage_get_self (m : Obj (List Message)) (elt : Message) :
    objGet (pushMessage m elt) elt.chat_id =
      some ((objGet m elt.chat_id).getD [] ++ [elt]) := by
  unfold pushMessage
  cases h : objGet m elt.chat_id with
  | none => simp [h, objGet_objSet_self]
  | some cur => simp [h, objGet_objSet_self]

/-- Pushing a message leaves every other chat's bucket unchanged. -/
theorem pushMessage_get_ne (m : Obj (List Message)) (elt : Message)
    (k : String) (h : elt.chat_id ≠ k) :
    objGet (pushMessage m elt) k = objGet m k := by
  unfold pushMessage
  have h1 : ∀ (m' : Obj (List Message)) (v : List Message),
      objGet (objSet m' elt.chat_id v) k = objGet m' k :=
    fun m' v => objGet_objSet_ne m' elt.chat_id k v h
  by_cases h0 : objGet m elt.chat_id = none <;> simp [h0, h1]

/-- The grouping fold: the bucket at `k` holds the accumulator's bucket
extended by exactly the messages whose `chat_id` is `k`, in list order. -/
theorem foldl_pushMessage_get (l : List Message) (acc : Obj (List Message))
    (k : String) :
    objGet (l.foldl pushMessage acc) k =
      if objGet acc k = none ∧ l.filter (fun m => m.chat_id == k) = [] then none
      else some ((objGet acc k).getD [] ++ l.filter (fun m => m.chat_id == k)) := by
  induction l generalizing acc with
  | nil =>
      simp only [List.foldl_nil, List.filter_nil]
      cases h : objGet acc k with
      | none => simp [h]
      | some cur => simp [h]
  | cons e rest ih =>
      simp only [List.foldl_cons, List.filter_cons]
      by_cases he : e.chat_id = k
      · have hset := pushMessage_get_self acc e
        rw [he] at hset
        rw [ih (pushMessage acc e), hset]
        cases hacc : objGet acc k <;> simp [hacc, he, List.append_assoc]
      · rw [ih (pushMessage acc e), pushMessage_get_ne acc e k he]
        simp [he]

/-- The grouped table always maps `"ALL"` to the empty bucket. -/
theorem groupMessagesByChat_get_ALL (result : List Message) :
    objGet (groupMessagesByChat result) "ALL" = some [] :=
  objGet_objSet_self _ _ _

/-- The grouped table's bucket at any other key is exactly the sublist of
messages with that `chat_id`, in backend return order (absent when empty). -/
theorem groupMessagesByChat_get_ne (result : List Message) (k : String)
    (h : k ≠ "ALL") :
    objGet (groupMessagesByChat result) k =
      if result.filter (fun m => m.chat_id == k) = [] then none
      else some (result.filter (fun m => m.chat_id == k)) := by
  unfold groupMessagesByChat
  rw [objGet_objSet_ne _ _ _ _ (Ne.symm h), foldl_pushMessage_get result [] k]
  simp [objGet]

/-! Part: Claim theorems -/

/-- Claim C1: for every chatId and text, when the backend insert for
`sendMessage` fulfils with a response whose status is not 200, the promise
returned by `sendMessage` rejects (the unconditional `resolve(res)` that
follows the `reject` loses, since a promise settles only once — so it
neither hangs nor resolves) with the message
"User not allowed to sign in"; and when the backend insert rejects with a
transport error, `sendMessage` rejects with that same transport error. -/
theorem C1_sendMessage_rejects (ε : Type) :
    (∀ r : InsertResponse, r.status ≠ 200 →
        sendMessageOutcome (PromiseResult.fulfilled r : PromiseResult ε InsertResponse) =
          Outcome.rejected (RejectReason.message "User not allowed to sign in")) ∧
    (∀ e : ε,
        sendMessageOutcome (PromiseResult.rejected e : PromiseResult ε InsertResponse) =
          Outcome.rejected (RejectReason.error e)) := by
  refine ⟨fun r h => ?_, fun e => rfl⟩
  simp [sendMessageOutcome, sendMessageSettles, settleFirst, h]

/-- Claim C1 witness: at status 403 `sendMessage` rejects with the
permission message, and at transport error "network down" it rejects with
that error. -/
theorem C1_sendMessage_rejects_witness :
    sendMessageOutcome (PromiseResult.fulfilled ⟨403⟩ : PromiseResult String InsertResponse) =
      Outcome.rejected (RejectReason.message "User not allowed to sign in") ∧
    sendMessageOutcome (PromiseResult.rejected "network down" : PromiseResult String InsertResponse) =
      Outcome.rejected (RejectReason.error "network down") :=
  ⟨(C1_sendMessage_rejects String).1 ⟨403⟩ (by decide),
   (C1_sendMessage_rejects String).2 "network down"⟩

/-- Claim C2: each of `getChats`, `getUsers` and `getMessages` resolves
(with the raw result list, the hashed user table, and the grouped message
table respectively) exactly when the fulfilled response's status is 200;
on any other status the executor makes no resolve/reject call at all, so
the promise stays pending. -/
theorem C2_deprecated_getters_status_gate (ε : Type) :
    (∀ r : QueryResponse Chat,
        getChatsOutcome (PromiseResult.fulfilled r : PromiseResult ε (QueryResponse Chat)) =
          if r.status = 200 then Outcome.resolved r.data.result else Outcome.pending) ∧
    (∀ r : QueryResponse User,
        getUsersOutcome (PromiseResult.fulfilled r : PromiseResult ε (QueryResponse User)) =
          if r.status = 200 then Outcome.resolved (convertRawUsersToHasedObject r.data.result)
          else Outcome.pending) ∧
    (∀ r : QueryResponse Message,
        getMessagesOutcome (PromiseResult.fulfilled r : PromiseResult ε (QueryResponse Message)) =
          if r.status = 200 then Outcome.resolved (groupMessagesByChat r.data.result)
          else Outcome.pending) := by
  refine ⟨fun r => ?_, fun r => ?_, fun r => ?_⟩ <;>
    by_cases h : r.status = 200 <;>
    simp [getChatsOutcome, getChatsSettles, getUsersOutcome, getUsersSettles,
      getMessagesOutcome, getMessagesSettles, settleFirst, h]

/-- Claim C3 counterexample: when the backend update call rejects with the
transport error "network down", the promise returned by `updateMessage`
does not reject with that error — it stays pending forever, because the
`catch` handler rethrows instead of calling the outer `reject`. -/
theorem C3_updateMessage_counterexample :
    updateMessageOutcome (PromiseResult.rejected "network down" :
        PromiseResult String UpdateResponse) = Outcome.pending ∧
    updateMessageOutcome (PromiseResult.rejected "network down" :
        PromiseResult String UpdateResponse) ≠ Outcome.rejected "network down" :=
  ⟨rfl, by decide⟩

/-- Claim C3 (amended): `updateMessage` delegates to the backend's
updateWhere on collection "messages" with the equality condition
`_id == message._id` and the message as the patch, and resolves with the
backend response on fulfilment; but when the backend call fails, the
promise returned by `updateMessage` neither resolves nor rejects (it stays
pending forever): the inner `catch` rethrows the backend error untouched,
rejecting only the inner then/catch chain (an unhandled rejection), never
the returned promise. -/
theorem C3_updateMessage_delegates_but_hangs (ε : Type) (message : Message) :
    updateMessageCall message =
      { collection := "messages",
        condition := Pred.cond "_id" "==" message._id,
        patch := message } ∧
    (∀ r : UpdateResponse,
        updateMessageOutcome (PromiseResult.fulfilled r : PromiseResult ε UpdateResponse) =
          Outcome.resolved r) ∧
    (∀ e : ε,
        updateMessageOutcome (PromiseResult.rejected e : PromiseResult ε UpdateResponse) =
          Outcome.pending) ∧
    (∀ e : ε,
        updateMessageInnerChain (PromiseResult.rejected e : PromiseResult ε UpdateResponse) =
          Outcome.rejected e) :=
  ⟨rfl, fun _ => rfl, fun _ => rfl, fun _ => rfl⟩

/-- Claim C4: `convertRawUsersToHasedObject` is a pure transform mapping
each input user's id to that user's record (for pairwise distinct ids not
equal to the sentinel key, as guaranteed by the data model) and always
containing the sentinel entry under key "ALL" (written last); on the empty
input the result is the one-entry table holding only the sentinel. -/
theorem C4_convertUsers_spec (rawUsers : List User)
    (hnodup : (rawUsers.map User._id).Nodup)
    (hall : ∀ u ∈ rawUsers, u._id ≠ "ALL") :
    (∀ u ∈ rawUsers,
        objGet (convertRawUsersToHasedObject rawUsers) u._id = some u) ∧
    objGet (convertRawUsersToHasedObject rawUsers) "ALL" =
      some { _id := "ALL", name := "ALL" } ∧
    convertRawUsersToHasedObject [] =
      [("ALL", { _id := "ALL", name := "ALL" })] := by
  refine ⟨fun u hu => ?_, objGet_objSet_self _ _ _, rfl⟩
  unfold convertRawUsersToHasedObject
  rw [objGet_objSet_ne _ _ _ _ (Ne.symm (hall u hu))]
  exact foldl_hash_get_of_mem rawUsers [] u hu hnodup

/-- Claim C4 witness: on the two-user input the table binds "u1" to its
record and "ALL" to the sentinel, and on the empty input the table is the
single sentinel entry. -/
theorem C4_convertUsers_spec_witness :
    objGet (convertRawUsersToHasedObject [⟨"u1", "A"⟩, ⟨"u2", "B"⟩]) "u1" =
      some ⟨"u1", "A"⟩ ∧
    objGet (convertRawUsersToHasedObject [⟨"u1", "A"⟩, ⟨"u2", "B"⟩]) "ALL" =
      some ⟨"ALL", "ALL"⟩ ∧
    convertRawUsersToHasedObject [] = [("ALL", ⟨"ALL", "ALL"⟩)] := by
  have h := C4_convertUsers_spec [⟨"u1", "A"⟩, ⟨"u2", "B"⟩] (by decide) (by decide)
  exact ⟨h.1 ⟨"u1", "A"⟩ (by decide), h.2.1, h.2.2⟩

/-- Claim C5: `createChat(partnerID)` performs exactly one backend insert,
on collection "chats", with the locally built record
`{_id: newId, to: partnerID, from: user._id, creation: now}`; on any
fulfilment it resolves with that locally constructed record (not the
server echo), and when the insert rejects it rejects with the backend
error. -/
theorem C5_createChat_spec (ε : Type) (partnerID : String) (user : User)
    (newId : String) (now : Nat) :
    createChatCalls partnerID user newId now =
      [{ collection := "chats",
         record := { _id := newId, «to» := partnerID, «from» := user._id,
                     creation := now } }] ∧
    (∀ r : InsertResponse,
        createChatOutcome partnerID user newId now
            (PromiseResult.fulfilled r : PromiseResult ε InsertResponse) =
          Outcome.resolved
            { _id := newId, «to» := partnerID, «from» := user._id, creation := now }) ∧
    (∀ e : ε,
        createChatOutcome partnerID user newId now
            (PromiseResult.rejected e : PromiseResult ε InsertResponse) =
          Outcome.rejected e) :=
  ⟨rfl, fun _ => rfl, fun _ => rfl⟩

/-- Claim C6: the filter condition built by `getChats` and the one built by
`startChatsRealtime` are each satisfied by a chat record exactly when the
chat's `from` is the current user, or its `to` is the current user, or its
`to` is "ALL"; a chat matching none of the three is excluded by both. -/
theorem C6_chat_predicates (uid : String) (c : Chat) :
    (evalPred (chatGetField c) (getChatsCondition uid) = true ↔
      c.«from» = uid ∨ c.«to» = uid ∨ c.«to» = "ALL") ∧
    (evalPred (chatGetField c) (startChatsRealtimeCondition uid) = true ↔
      c.«from» = uid ∨ c.«to» = uid ∨ c.«to» = "ALL") := by
  constructor
  · simp [getChatsCondition, evalPred, evalPredList, chatGetField]
  · simp [startChatsRealtimeCondition, evalPred, evalPredList, chatGetField]
    tauto

/-- Claim C7: on a status-200 response, `getMessages` resolves with the
table grouping the returned messages by `chat_id` (each bucket is exactly
the sublist of messages with that chat id in backend return order, and is
absent when no message has that id), with key "ALL" always bound to the
empty sequence; on the empty result list the table holds only
`"ALL" ↦ []`. -/
theorem C7_getMessages_grouping (ε : Type) (r : QueryResponse Message)
    (k : String) (h200 : r.status = 200) (hk : k ≠ "ALL") :
    getMessagesOutcome (PromiseResult.fulfilled r : PromiseResult ε (QueryResponse Message)) =
      Outcome.resolved (groupMessagesByChat r.data.result) ∧
    objGet (groupMessagesByChat r.data.result) "ALL" = some [] ∧
    objGet (groupMessagesByChat r.data.result) k =
      (if r.data.result.filter (fun m => m.chat_id == k) = [] then none
       else some (r.data.result.filter (fun m => m.chat_id == k))) ∧
    groupMessagesByChat [] = [("ALL", [])] := by
  refine ⟨?_, groupMessagesByChat_get_ALL _, groupMessagesByChat_get_ne _ _ hk, rfl⟩
  simp [getMessagesOutcome, getMessagesSettles, settleFirst, h200]

/-- Claim C7 witness: a concrete 200 response with one message for chat
"c1" resolves with the grouped table, whose "c1" bucket is that message
and whose "ALL" bucket is empty. -/
theorem C7_getMessages_grouping_witness :
    getMessagesOutcome
        (PromiseResult.fulfilled ⟨200, ⟨[⟨"m1", "hi", false, "c1", "u1", 5⟩]⟩⟩ :
          PromiseResult String (QueryResponse Message)) =
      Outcome.resolved (groupMessagesByChat [⟨"m1", "hi", false, "c1", "u1", 5⟩]) ∧
    objGet (groupMessagesByChat [⟨"m1", "hi", false, "c1", "u1", 5⟩]) "ALL" = some [] ∧
    objGet (groupMessagesByChat [⟨"m1", "hi", false, "c1", "u1", 5⟩]) "c1" =
      (if ([⟨"m1", "hi", false, "c1", "u1", 5⟩] : List Message).filter
            (fun m => m.chat_id == "c1") = []
       then none
       else some (([⟨"m1", "hi", false, "c1", "u1", 5⟩] : List Message).filter
            (fun m => m.chat_id == "c1"))) ∧
    groupMessagesByChat [] = [("ALL", [])] :=
  C7_getMessages_grouping String ⟨200, ⟨[⟨"m1", "hi", false, "c1", "u1", 5⟩]⟩⟩ "c1"
    rfl (by decide)

/-- Claim C8: the filter condition built by `getUsers` is the inequality
`_id != uid`: it is satisfied by a user record exactly when that record's
id differs from the current user's, so the caller is excluded and every
other user admitted. -/
theorem C8_getUsers_predicate (uid : String) (u : User) :
    evalPred (userGetField u) (getUsersCondition uid) = true ↔ u._id ≠ uid := by
  simp [getUsersCondition, evalPred, userGetField]

/-- Claim C9: `sendMessage(chatID, text)` performs exactly one backend
insert, on collection "messages", with the locally built record
`{_id: newId, text, read: false, chat_id: chatID, from: user._id,
time: now}`; on a status-200 fulfilment it resolves with the raw backend
response itself (not the constructed record — asymmetric with
`createChat`). -/
theorem C9_sendMessage_construction (ε : Type) (chatID text : String)
    (user : User) (newId : String) (now : Nat) :
    sendMessageCalls chatID text user newId now =
      [{ collection := "messages",
         record := { _id := newId, text := text, read := false,
                     chat_id := chatID, «from» := user._id, time := now } }] ∧
    (∀ r : InsertResponse, r.status = 200 →
        sendMessageOutcome (PromiseResult.fulfilled r : PromiseResult ε InsertResponse) =
          Outcome.resolved r) := by
  refine ⟨rfl, fun r h => ?_⟩
  simp [sendMessageOutcome, sendMessageSettles, settleFirst, h]

/-- Claim C9 witness: concrete construction of the inserted record, and a
200 response resolving with the raw response. -/
theorem C9_sendMessage_construction_witness :
    sendMessageCalls "c1" "hello" ⟨"u1", "A"⟩ "m1" 7 =
      [{ collection := "messages",
         record := { _id := "m1", text := "hello", read := false,
                     chat_id := "c1", «from» := "u1", time := 7 } }] ∧
    sendMessageOutcome (PromiseResult.fulfilled ⟨200⟩ : PromiseResult String InsertResponse) =
      Outcome.resolved ⟨200⟩ :=
  ⟨(C9_sendMessage_construction String "c1" "hello" ⟨"u1", "A"⟩ "m1" 7).1,
   (C9_sendMessage_construction String "c1" "hello" ⟨"u1", "A"⟩ "m1" 7).2 ⟨200⟩ rfl⟩

/-- Claim C10: `createChat` never inspects the response status — on any
fulfilment, whatever the status, it resolves with the locally constructed
chat record; whereas `sendMessage` rejects whenever the fulfilled status
is not 200. -/
theorem C10_createChat_ignores_status (ε : Type) :
    (∀ (partnerID : String) (user : User) (newId : String) (now : Nat)
        (r : InsertResponse),
        createChatOutcome partnerID user newId now
            (PromiseResult.fulfilled r : PromiseResult ε InsertResponse) =
          Outcome.resolved (createChatRecord partnerID user newId now)) ∧
    (∀ r : InsertResponse, r.status ≠ 200 →
        sendMessageOutcome (PromiseResult.fulfilled r : PromiseResult ε InsertResponse) =
          Outcome.rejected (RejectReason.message "User not allowed to sign in")) := by
  refine ⟨fun _ _ _ _ _ => rfl, fun r h => ?_⟩
  simp [sendMessageOutcome, sendMessageSettles, settleFirst, h]

/-- Claim C10 witness: at status 500, `createChat` still resolves with its
local record while `sendMessage` rejects. -/
theorem C10_createChat_ignores_status_witness :
    createChatOutcome "u2" ⟨"u1", "A"⟩ "c9" 3
        (PromiseResult.fulfilled ⟨500⟩ : PromiseResult String InsertResponse) =
      Outcome.resolved (createChatRecord "u2" ⟨"u1", "A"⟩ "c9" 3) ∧
    sendMessageOutcome (PromiseResult.fulfilled ⟨500⟩ : PromiseResult String InsertResponse) =
      Outcome.rejected (RejectReason.message "User not allowed to sign in") :=
  ⟨(C10_createChat_ignores_status String).1 "u2" ⟨"u1", "A"⟩ "c9" 3 ⟨500⟩,
   (C10_createChat_ignores_status String).2 ⟨500⟩ (by decide)⟩

end ChatService
